import Mathlib

namespace ConvAI

/-- An entity value as produced by the classifier: Python strings or lists of
strings (e.g. multiple recipients).  `vstr` models a scalar, `vlist` a list. -/
inductive Val where
  | vstr (s : String)
  | vlist (l : List String)
deriving DecidableEq, Repr

/-- Python truthiness of an entity value: empty strings and empty lists are
falsy, everything else is truthy. -/
def pyTruthy : Val → Bool
  | .vstr s => s ≠ ""
  | .vlist l => l ≠ []

/-- Python whitespace as stripped by `str.strip()` (the ASCII cases; entity
values come from JSON text). -/
def pyIsSpace (c : Char) : Bool :=
  c == ' ' || c == '\t' || c == '\n' || c == '\r'

/-- Whether Python `str(value).strip()` is non-empty.  For a string,
stripping leaves something exactly when some character is non-whitespace;
for a list, `str(l)` is a bracketed rendering (square brackets around the
quoted elements), which is never whitespace-only. -/
def pyStrStripNonempty : Val → Bool
  | .vstr s => s.data.any (fun c => !pyIsSpace c)
  | .vlist _ => true

/-- The entity dictionary the entities dictionary of the state: an association list from
field names to values, first-match lookup. -/
abbrev Entities := List (String × Val)

/-- Single-key assignment `d[k] = v` on a Python dict: overwrite the entry for
`k` if present (in place), otherwise append it. -/
def setKey (m : Entities) (k : String) (v : Val) : Entities :=
  if m.any (fun kv => kv.1 == k) then
    m.map (fun kv => if kv.1 == k then (k, v) else kv)
  else
    m ++ [(k, v)]

/-- Python `base.update(deltas)`: per-key overwrite of `base` by each entry of
`deltas`, keys not mentioned in `deltas` untouched (line 193 of
`conversation_manager.py`). -/
def dictUpdate (base deltas : Entities) : Entities :=
  deltas.foldl (fun m kv => setKey m kv.1 kv.2) base

/-- Lookup in the entity dictionary. -/
def lookupKey (m : Entities) (k : String) : Option Val :=
  m.lookup k

/-- The check `entities.get(field) and str(entities.get(field)).strip()` used
throughout the manager: the field is present, truthy, and its string rendering
strips to something non-empty. -/
def fieldFilled (m : Entities) (k : String) : Bool :=
  match lookupKey m k with
  | none => false
  | some v => pyTruthy v && pyStrStripNonempty v

/-!
Verification of the dialogue state machine of the Conversitional-AI repository.

The definitions below are a shallow embedding of
`src/components/conversation_manager.py` (class `ConversationManager`),
`src/components/llm_client.py` (the parse fallback of `_parse_response`) and
`src/utils/helpers.py` (`validate_email_addresses`).  Python dictionaries of
entities are modelled as association lists with first-match lookup and
per-key overwrite; Python truthiness of entity values (strings or lists of
strings) is modelled explicitly.  The external classifier call and the
filesystem write of `save_action_to_outbox` are the only effectful
collaborators; they are modelled as explicit input parameters
(`ClassifierOutcome`, `SaveOutcome`) of `processMessage`.
-/

/-- Regex word character (`\w`): ASCII alphanumeric or underscore. -/
def isWordChar (c : Char) : Bool := c.isAlphanum || c == '_'

/-- Character class `[A-Za-z0-9._%+-]` of the local part. -/
def isLocalChar (c : Char) : Bool :=
  c.isAlphanum || c == '.' || c == '_' || c == '%' || c == '+' || c == '-'

/-- Character class `[A-Za-z0-9.-]` of the domain part. -/
def isDomainChar (c : Char) : Bool := c.isAlphanum || c == '.' || c == '-'

/-- Character class `[A-Z|a-z]` of the final run (including the literal bar). -/
def isTldChar (c : Char) : Bool := c.isAlpha || c == '|'

/-- Matching the final `{2,}` run: `prev` is the last consumed character and
`n` the number consumed so far; the run may stop at any point of length at
least two where a word boundary holds. -/
def tldRun : Char → Nat → List Char → Bool
  | prev, n, [] => decide (2 ≤ n) && isWordChar prev
  | prev, n, c :: rest =>
    (decide (2 ≤ n) && (isWordChar prev != isWordChar c)) ||
      (isTldChar c && tldRun c (n + 1) rest)

/-- Start of the final run: at least one class character. -/
def tldStart : List Char → Bool
  | [] => false
  | c :: rest => isTldChar c && tldRun c 1 rest

/-- After at least one domain character: either the literal dot followed by
the final run, or one more domain character. -/
def domainRun : List Char → Bool
  | [] => false
  | c :: rest => (c == '.' && tldStart rest) || (isDomainChar c && domainRun rest)

/-- The `[A-Za-z0-9.-]+\.` part: a first domain character then `domainRun`. -/
def domainStart : List Char → Bool
  | [] => false
  | c :: rest => isDomainChar c && domainRun rest

/-- After at least one local character: either `@` followed by the domain, or
one more local character. -/
def localRun : List Char → Bool
  | [] => false
  | c :: rest => (c == '@' && domainStart rest) || (isLocalChar c && localRun rest)

/-- Scan every position for a match start: a word boundary against the
previous character (`prevWord`), one local character, then `localRun`. -/
def emailSearchAux : Bool → List Char → Bool
  | _, [] => false
  | prevWord, c :: rest =>
    ((prevWord != isWordChar c) && isLocalChar c && localRun rest) ||
      emailSearchAux (isWordChar c) rest

/-- Embedding of `bool(re.search(email_pattern, s))` of `validate_email_addresses`. -/
def hasEmailMatch (s : String) : Bool := emailSearchAux false s.data

/-- Embedding of `validate_email_addresses(recipients)` from `utils/helpers.py`: falsy
input fails; a string must contain a match; every truthy entry of a list must
contain a match (falsy entries are skipped by the comprehension filter). -/
def validateEmailAddresses : Val → Bool
  | .vstr s => if s == "" then false else hasEmailMatch s
  | .vlist l => if l == ([] : List String) then false
      else (l.filter (fun r => r != "")).all hasEmailMatch

/-! ### Email-shape validation (`utils/helpers.py`, `validate_email_addresses`)

The Python function tests `re.search` of the pattern
`\b[A-Za-z0-9._%+-]+@[A-Za-z0-9.-]+\.[A-Z|a-z]{2,}\b`.  We embed match
existence directly: a word-boundary, a non-empty run of local-part characters,
`@`, a non-empty run of domain characters, a dot, at least two characters of
the final class (note the class `[A-Z|a-z]` literally contains `|`), and a
closing word boundary. -/

/-- One entry of the history list of the state as built by `_add_to_history`:
user input, bot response, timestamp, and the deep-copied entity snapshot. -/
structure HistoryEntry where
  user_input : String
  bot_response : String
  timestamp : String
  state_snapshot : Entities
deriving DecidableEq, Repr

/-- Abbreviation for building a history entry. -/
def mkEntry (u b ts : String) (snap : Entities) : HistoryEntry :=
  { user_input := u, bot_response := b, timestamp := ts, state_snapshot := snap }

/-- The `last_saved_action` record set in `_handle_action_execution`. -/
structure SavedAction where
  filename : String
  filepath : String
  action_type : String
  summary : String
  saved_at : String
deriving DecidableEq, Repr

/-- The session state dictionary created by `_reset_state`. -/
structure ConvState where
  intent : Option String
  entities : Entities
  awaiting_confirmation : Bool
  awaiting_email_addresses : Bool
  history : List HistoryEntry
  session_active : Bool
  last_saved_action : Option SavedAction
deriving DecidableEq, Repr

/-- Embedding of `_reset_state`: the zero state. -/
def resetState : ConvState :=
  { intent := none
    entities := ([] : List (String × Val))
    awaiting_confirmation := false
    awaiting_email_addresses := false
    history := []
    session_active := false
    last_saved_action := none }

/-- The classifier output dictionary (a `ClassifiedTurn`).  `_parse_response`
fills every field with a default when absent, so all fields are total here;
`missing_entities` defaults to the empty list (`.get("missing_entities", [])`). -/
structure LLMResponse where
  action_type : String
  intent : Option String
  entities : Entities
  response : String
  needs_confirmation : Bool
  ready_to_execute : Bool
  correction_detected : Bool
  missing_entities : List String
deriving DecidableEq, Repr

/-- The fixed fallback dictionary `_parse_response` returns when the raw
classifier text is not parsable JSON (`llm_client.py`, lines 278-290). -/
def parseFallbackResponse : LLMResponse :=
  { action_type := "error"
    intent := some "chitchat"
    entities := ([] : List (String × Val))
    response := "I had trouble understanding that. Could you rephrase?"
    needs_confirmation := false
    ready_to_execute := false
    correction_detected := false
    missing_entities := [] }

/-- Embedding of `_update_state_from_llm_response` (lines 154-217).  Note the Python
method receives `user_input` but never reads it: the confirmation branch
relies only on the classifier flags. -/
def updateStateFromLlmResponse (st : ConvState) (r : LLMResponse)
    (_userInput : String) : ConvState :=
  if r.action_type == "new_intent" then
    if r.intent == some "send_email" && st.intent == some "schedule_meeting"
        && r.missing_entities.contains "email_addresses" then
      { st with awaiting_confirmation := false, awaiting_email_addresses := true }
    else if r.intent == some "send_email" && st.awaiting_email_addresses then
      match lookupKey r.entities "recipient" with
      | some v =>
        if pyTruthy v then
          { st with entities := setKey st.entities "recipient" v
                    intent := some "send_email"
                    awaiting_email_addresses := false
                    awaiting_confirmation := r.needs_confirmation }
        else st
      | none => st
    else
      { st with intent := r.intent
                entities := r.entities
                awaiting_confirmation := r.needs_confirmation
                session_active := true }
  else if r.action_type == "correction" then
    if r.correction_detected then
      { st with entities := dictUpdate st.entities r.entities
                awaiting_confirmation := r.needs_confirmation }
    else st
  else if r.action_type == "confirmation" then
    if r.ready_to_execute then { st with awaiting_confirmation := false }
    else resetState
  else if r.action_type == "cancellation" then resetState
  else if r.action_type == "email_address_request" then
    { st with awaiting_email_addresses := true, awaiting_confirmation := false }
  else if r.action_type == "chitchat" then
    if !st.session_active then { st with intent := some "chitchat" } else st
  else st

/-- Embedding of `_has_required_entities` (lines 219-236). -/
def hasRequiredEntities (st : ConvState) : Bool :=
  if st.intent == some "schedule_meeting" then
    fieldFilled st.entities "title" && fieldFilled st.entities "date"
      && fieldFilled st.entities "time"
  else if st.intent == some "send_email" then
    fieldFilled st.entities "recipient"
      && (fieldFilled st.entities "body" || fieldFilled st.entities "subject")
  else true

/-- Embedding of `_get_missing_entities` (lines 238-256). -/
def getMissingEntities (st : ConvState) : List String :=
  if st.intent == some "schedule_meeting" then
    (["title", "date", "time"].filter (fun f => !fieldFilled st.entities f))
  else if st.intent == some "send_email" then
    (if !fieldFilled st.entities "recipient" then ["recipient"] else []) ++
      (if !(fieldFilled st.entities "body" || fieldFilled st.entities "subject")
        then ["body_or_subject"] else [])
  else []

/-- Embedding of `is_ready_for_execution` (lines 329-354), mirroring the source shape:
an early guard on the session, then the per-intent entity checks, each
conjoined with the negated confirmation flag. -/
def isReadyForExecution (st : ConvState) : Bool :=
  if !(st.session_active
      && (st.intent == some "schedule_meeting" || st.intent == some "send_email")) then
    false
  else if st.intent == some "schedule_meeting" then
    (fieldFilled st.entities "title" && fieldFilled st.entities "date"
      && fieldFilled st.entities "time") && !st.awaiting_confirmation
  else if st.intent == some "send_email" then
    (fieldFilled st.entities "recipient"
        && (fieldFilled st.entities "body" || fieldFilled st.entities "subject"))
      && !st.awaiting_confirmation
  else false

/-! ### Session state and classifier output -/

/-- The action snapshot built by `get_action_for_execution` (lines 356-366).
The `conversation_id` mixes the object identity and the wall clock; both are
outside the embedding, so it is rendered from the timestamp parameter. -/
structure ActionData where
  type : String
  entities : Entities
  timestamp : String
  conversation_id : String
deriving DecidableEq, Repr

/-- Embedding of `get_action_for_execution`: `none` unless the execution gate holds. -/
def getActionForExecution (st : ConvState) (ts : String) : Option ActionData :=
  if isReadyForExecution st then
    some { type := st.intent.getD ""
           entities := st.entities
           timestamp := ts
           conversation_id := "conv_" ++ ts }
  else none

/-- Modelled from the spec: the manager imports `get_action_summary` from
`utils.helpers`, but no function of that name exists under `src/` (the file
only defines the private `_get_action_summary` over saved files).  The spec
describes `lastSavedAction` as carrying an opaque human-readable summary of
the persisted action, so the summary is modelled as a rendering of the
action kind. -/
def getActionSummary (a : ActionData) : String := a.type

/-- Python `str.title()` on the space-separated rendering used in the success
message: capitalize the first letter of each word, lowercase the rest. -/
def pyTitleWord (w : String) : String :=
  match w.data with
  | [] => ""
  | c :: rest => String.mk (c.toUpper :: rest.map Char.toLower)

/-- Rendering of the action type in the success message: underscores replaced
by spaces, then title-cased. -/
def pyTitle (s : String) : String :=
  String.intercalate " " ((s.splitOn " ").map pyTitleWord)

/-- Outcome of `save_action_to_outbox` as observed by the manager: the
success dictionary carries `filename` and `filepath`; every failure
(validation shortfall, storage error, or a raised exception caught by the
surrounding `try`) carries an error string. -/
inductive SaveOutcome where
  | ok (filename filepath : String)
  | err (msg : String)
deriving DecidableEq, Repr

/-- The `execution_result` dictionary returned by `_handle_action_execution`. -/
structure ExecResult where
  success : Bool
  action_executed : Bool
  filename : Option String
  filepath : Option String
  error : Option String
  message : String
deriving DecidableEq, Repr

/-- Embedding of `_reset_session_after_execution` (lines 133-141): reset, then restore the
preserved history and the just-set `last_saved_action`. -/
def resetSessionAfterExecution (st : ConvState) : ConvState :=
  { resetState with history := st.history
                    last_saved_action := st.last_saved_action }

/-- Embedding of `_handle_action_execution` (lines 77-131): gate on
`is_ready_for_execution`, build the action snapshot, save it, and on success
record `last_saved_action` and reset the session (keeping history); on
failure leave the state untouched and report the error. -/
def handleActionExecution (st : ConvState) (save : SaveOutcome) (ts : String) :
    ConvState × Option ExecResult :=
  if !isReadyForExecution st then (st, none)
  else
    match getActionForExecution st ts with
    | none => (st, none)
    | some a =>
      match save with
      | .ok fn fp =>
        let saved : SavedAction :=
          { filename := fn
            filepath := fp
            action_type := a.type
            summary := getActionSummary a
            saved_at := ts }
        let st₁ := { st with last_saved_action := some saved }
        (resetSessionAfterExecution st₁,
          some { success := true
                 action_executed := true
                 filename := some fn
                 filepath := some fp
                 error := none
                 message := "✅ " ++ pyTitle ((a.type).replace "_" " ")
                   ++ " saved successfully!" })
      | .err e =>
        (st,
          some { success := false
                 action_executed := false
                 filename := none
                 filepath := none
                 error := some e
                 message := "❌ Failed to save " ++ a.type ++ ": " ++ e })

/-- Embedding of `_add_to_history` (lines 262-273): append the exchange, then keep only
the last `max_history = 10` entries. -/
def addToHistory (h : List HistoryEntry) (e : HistoryEntry) : List HistoryEntry :=
  let h' := h ++ [e]
  if h'.length > 10 then h'.drop (h'.length - 10) else h'

/-- What `process_message` returns to Presentation: the classifier dictionary
with an optional `execution_result` added, or the fixed error dictionary. -/
structure OutwardResponse where
  action_type : String
  intent : Option String
  entities : Entities
  response : String
  needs_confirmation : Bool
  ready_to_execute : Bool
  execution_result : Option ExecResult
  error : Option String
deriving DecidableEq, Repr

/-- Outcome of the classifier call `self.llm_client.process_message`: either
a raised exception (network failure and similar, caught by the manager), or a
returned dictionary — an unparsable classifier reply surfaces here as
`returns parseFallbackResponse`. -/
inductive ClassifierOutcome where
  | raises (e : String)
  | returns (r : LLMResponse)
deriving DecidableEq, Repr

/-- The fixed apology of the error fallback in `process_message`. -/
def errorReply : String := "Sorry, I encountered an error. Could you try again?"

/-- Embedding of `process_message` (lines 30-75): classify, update state, attempt
execution, append history, return the response — or, when the classifier
raises, return the fixed error dictionary after appending history. -/
def processMessage (st : ConvState) (o : ClassifierOutcome) (userInput : String)
    (save : SaveOutcome) (ts : String) : ConvState × OutwardResponse :=
  match o with
  | .raises e =>
    let st' := { st with
      history := addToHistory st.history
        { user_input := userInput
          bot_response := errorReply
          timestamp := ts
          state_snapshot := st.entities } }
    (st',
      { action_type := "error"
        intent := some "chitchat"
        entities := ([] : List (String × Val))
        response := errorReply
        needs_confirmation := false
        ready_to_execute := false
        execution_result := none
        error := some e })
  | .returns r =>
    let st₁ := updateStateFromLlmResponse st r userInput
    let p := handleActionExecution st₁ save ts
    let st₃ := { p.1 with
      history := addToHistory p.1.history
        { user_input := userInput
          bot_response := r.response
          timestamp := ts
          state_snapshot := p.1.entities } }
    (st₃,
      { action_type := r.action_type
        intent := r.intent
        entities := r.entities
        response := r.response
        needs_confirmation := r.needs_confirmation
        ready_to_execute := r.ready_to_execute
        execution_result := p.2
        error := none })

/-- One turn of the driver loop: the state component of `processMessage`. -/
def stepTurn (st : ConvState) (t : ClassifierOutcome × String × SaveOutcome × String) :
    ConvState :=
  (processMessage st t.1 t.2.1 t.2.2.1 t.2.2.2).1

/-- A whole conversation: fold the turns from the freshly initialized state. -/
def runTurns (ts : List (ClassifierOutcome × String × SaveOutcome × String)) :
    ConvState :=
  ts.foldl stepTurn resetState

/-! ### Concrete states and turns used as counterexamples and witnesses -/

/-- A reachable post-confirmation email state whose recipient is not
email-shaped: reachable by a `new_intent/send_email` turn with
`needs_confirmation` false. -/
def emailReadyState : ConvState :=
  { intent := some "send_email"
    entities := [("recipient", Val.vstr "bob"), ("subject", Val.vstr "hi")]
    awaiting_confirmation := false
    awaiting_email_addresses := false
    history := []
    session_active := true
    last_saved_action := none }

/-- A pending-confirmation meeting state with all required fields present. -/
def meetingPendingState : ConvState :=
  { intent := some "schedule_meeting"
    entities := [("title", Val.vstr "sync"), ("date", Val.vstr "2026-10-13"),
                 ("time", Val.vstr "3pm")]
    awaiting_confirmation := true
    awaiting_email_addresses := false
    history := []
    session_active := true
    last_saved_action := none }

/-- A confirmation-kind classifier turn whose flag claims readiness. -/
def confirmReadyTurn : LLMResponse :=
  { action_type := "confirmation"
    intent := some "schedule_meeting"
    entities := []
    response := "Perfect. Scheduling it now."
    needs_confirmation := false
    ready_to_execute := true
    correction_detected := false
    missing_entities := [] }

/-- A `new_intent/schedule_meeting` turn carrying a title and a date. -/
def meetingNewIntentTurn : LLMResponse :=
  { action_type := "new_intent"
    intent := some "schedule_meeting"
    entities := [("title", Val.vstr "standup"), ("date", Val.vstr "2026-10-13")]
    response := "What time?"
    needs_confirmation := false
    ready_to_execute := false
    correction_detected := false
    missing_entities := [] }

/-- A correction-kind turn with a date delta whose `correction_detected`
flag is unset. -/
def correctionIgnoredTurn : LLMResponse :=
  { action_type := "correction"
    intent := some "schedule_meeting"
    entities := [("date", Val.vstr "2026-10-14")]
    response := "Moved to the 14th."
    needs_confirmation := true
    ready_to_execute := false
    correction_detected := false
    missing_entities := [] }

/-- The same correction turn with `correction_detected` set. -/
def correctionAppliedTurn : LLMResponse :=
  { correctionIgnoredTurn with correction_detected := true }

/-- Scenario A turn: classifier returns title, date, time but no participants. -/
def scenarioAturn : LLMResponse :=
  { action_type := "new_intent"
    intent := some "schedule_meeting"
    entities := [("title", Val.vstr "meeting with Sara"),
                 ("date", Val.vstr "2026-10-13"), ("time", Val.vstr "3pm")]
    response := "Should I book it?"
    needs_confirmation := false
    ready_to_execute := false
    correction_detected := false
    missing_entities := [] }

/-- Scenario A post-state. -/
def scenarioAState : ConvState :=
  updateStateFromLlmResponse resetState scenarioAturn "Book meeting with Sara tomorrow at 3pm"

/-! ### Execution and the per-turn pipeline -/

theorem lookup_of_any_eq_false (l : Entities) (k : String)
    (h : l.any (fun kv => kv.1 == k) = false) : lookupKey l k = none := by
  unfold lookupKey
  rw [List.lookup_eq_none_iff]
  intro p hp
  rw [List.any_eq_false] at h
  have hpk : ¬((p.1 == k) = true) := h p hp
  simp only [bne_iff_ne, ne_eq]
  intro hkp
  subst hkp
  exact hpk (beq_self_eq_true _)

theorem lookup_map_set_self (l : Entities) (k : String) (v : Val)
    (h : l.any (fun kv => kv.1 == k) = true) :
    lookupKey (l.map (fun kv => if kv.1 == k then (k, v) else kv)) k = some v := by
  induction l with
  | nil => simp at h
  | cons hd tl ih =>
    obtain ⟨a, b⟩ := hd
    by_cases hk : a = k
    · have hf : (if ((a, b).1 == k) = true then ((k, v) : String × Val) else (a, b)) = (k, v) := by
        simp [hk]
      simp only [List.map_cons, hf]
      exact List.lookup_cons_self
    · have hf : (if ((a, b).1 == k) = true then ((k, v) : String × Val) else (a, b)) = (a, b) := by
        simp [hk]
      have hany : tl.any (fun kv => kv.1 == k) = true := by
        cases h' : tl.any (fun kv => kv.1 == k)
        · exfalso
          revert h
          simp [List.any_cons, hk, h']
        · rfl
      have hne : (k == a) = false := by
        simp only [beq_eq_false_iff_ne, ne_eq]
        exact fun he => hk he.symm
      simp only [List.map_cons, hf]
      show List.lookup k ((a, b) :: _) = some v
      rw [List.lookup_cons, hne]
      exact ih hany

theorem lookup_map_set_ne (l : Entities) (k k' : String) (v : Val)
    (hk : k' ≠ k) :
    lookupKey (l.map (fun kv => if kv.1 == k then (k, v) else kv)) k'
      = lookupKey l k' := by
  induction l with
  | nil => rfl
  | cons hd tl ih =>
    obtain ⟨a, b⟩ := hd
    show List.lookup k' _ = List.lookup k' ((a, b) :: tl)
    by_cases hh : a = k
    · have hf : (if ((a, b).1 == k) = true then ((k, v) : String × Val) else (a, b)) = (k, v) := by
        simp [hh]
      have h1 : (k' == k) = false := by simp [beq_eq_false_iff_ne, hk]
      have h2 : (k' == a) = false := by
        simp only [beq_eq_false_iff_ne, ne_eq, hh]
        exact hk
      simp only [List.map_cons, hf]
      rw [List.lookup_cons, List.lookup_cons, h1, h2]
      exact ih
    · have hf : (if ((a, b).1 == k) = true then ((k, v) : String × Val) else (a, b)) = (a, b) := by
        simp [hh]
      simp only [List.map_cons, hf]
      rw [List.lookup_cons, List.lookup_cons]
      cases hb : (k' == a)
      · exact ih
      · rfl

theorem lookupKey_setKey (m : Entities) (k k' : String) (v : Val) :
    lookupKey (setKey m k v) k' = if k' = k then some v else lookupKey m k' := by
  unfold setKey
  by_cases hany : m.any (fun kv => kv.1 == k) = true
  · rw [if_pos hany]
    by_cases hk : k' = k
    · subst hk
      rw [if_pos rfl]
      exact lookup_map_set_self m k' v hany
    · rw [if_neg hk]
      exact lookup_map_set_ne m k k' v hk
  · rw [if_neg hany]
    unfold lookupKey
    rw [List.lookup_append]
    by_cases hk : k' = k
    · subst hk
      rw [if_pos rfl]
      have hfalse : m.any (fun kv => kv.1 == k') = false := by
        cases hb : m.any (fun kv => kv.1 == k')
        · rfl
        · exact absurd hb hany
      have hnone : List.lookup k' m = none :=
        lookup_of_any_eq_false m k' hfalse
      rw [hnone]
      show Option.or none (List.lookup k' [(k', v)]) = some v
      rw [List.lookup_cons, beq_self_eq_true]
      rfl
    · rw [if_neg hk]
      have h1 : (k' == k) = false := by simp [beq_eq_false_iff_ne, hk]
      show Option.or (List.lookup k' m) (List.lookup k' [(k, v)]) = List.lookup k' m
      rw [List.lookup_cons, h1]
      show Option.or (List.lookup k' m) (List.lookup k' []) = List.lookup k' m
      cases List.lookup k' m <;> rfl

theorem lookupKey_dictUpdate_of_not_mem :
    ∀ (deltas base : Entities) (k : String), lookupKey deltas k = none →
      lookupKey (dictUpdate base deltas) k = lookupKey base k := by
  intro deltas
  induction deltas with
  | nil => intro base k _; rfl
  | cons hd tl ih =>
    intro base k h
    obtain ⟨a, b⟩ := hd
    have hcons := h
    unfold lookupKey at hcons
    rw [List.lookup_cons] at hcons
    cases hb : (k == a) with
    | true => rw [hb] at hcons; simp at hcons
    | false =>
      rw [hb] at hcons
      show lookupKey (dictUpdate (setKey base a b) tl) k = lookupKey base k
      rw [ih (setKey base a b) k hcons]
      rw [lookupKey_setKey]
      rw [if_neg (beq_eq_false_iff_ne.mp hb)]

theorem lookupKey_dictUpdate_of_mem :
    ∀ (deltas base : Entities) (k : String) (v : Val),
      (deltas.map Prod.fst).Nodup → lookupKey deltas k = some v →
      lookupKey (dictUpdate base deltas) k = some v := by
  intro deltas
  induction deltas with
  | nil => intro base k v _ h; simp [lookupKey] at h
  | cons hd tl ih =>
    intro base k v hnd h
    obtain ⟨a, b⟩ := hd
    have hcons := h
    unfold lookupKey at hcons
    rw [List.lookup_cons] at hcons
    simp only [List.map_cons, List.nodup_cons] at hnd
    cases hb : (k == a) with
    | true =>
      rw [hb] at hcons
      have hk : k = a := beq_iff_eq.mp hb
      have hv : v = b := by
        simp only [Option.some.injEq] at hcons
        exact hcons.symm
      have htl : lookupKey tl k = none := by
        unfold lookupKey
        rw [List.lookup_eq_none_iff]
        intro p hp
        simp only [bne_iff_ne, ne_eq]
        intro hkp
        exact hnd.1 (by rw [← hk, hkp]; exact List.mem_map_of_mem Prod.fst hp)
      show lookupKey (dictUpdate (setKey base a b) tl) k = some v
      rw [lookupKey_dictUpdate_of_not_mem tl _ k htl]
      rw [lookupKey_setKey]
      rw [if_pos hk, hv]
    | false =>
      rw [hb] at hcons
      show lookupKey (dictUpdate (setKey base a b) tl) k = some v
      exact ih (setKey base a b) k v hnd.2 hcons

/-! ### Lookup lemmas for the entity dictionary -/

theorem addToHistory_length_le (h : List HistoryEntry) (e : HistoryEntry) :
    (addToHistory h e).length ≤ 10 := by
  unfold addToHistory
  by_cases hlen : (h ++ [e]).length > 10
  · rw [if_pos hlen, List.length_drop]
    omega
  · rw [if_neg hlen]
    omega

theorem addToHistory_shape (h : List HistoryEntry) (e : HistoryEntry) :
    ∃ q, addToHistory h e = q ++ [e] ∧ q <:+ h := by
  unfold addToHistory
  by_cases hlen : (h ++ [e]).length > 10
  · refine ⟨h.drop ((h ++ [e]).length - 10), ?_, List.drop_suffix _ _⟩
    rw [if_pos hlen, List.drop_append_eq_append_drop]
    have hz : (h ++ [e]).length - 10 - h.length = 0 := by
      simp only [List.length_append, List.length_singleton]
      omega
    rw [hz]
    rfl
  · exact ⟨h, by rw [if_neg hlen], List.suffix_refl h⟩

theorem isReady_set_history (st : ConvState) (h : List HistoryEntry) :
    isReadyForExecution { st with history := h } = isReadyForExecution st := rfl

theorem isReady_resetSession (st : ConvState) :
    isReadyForExecution (resetSessionAfterExecution st) = false := rfl

theorem update_history_suffix (st : ConvState) (r : LLMResponse) (i : String) :
    (updateStateFromLlmResponse st r i).history <:+ st.history := by
  unfold updateStateFromLlmResponse
  repeat' split
  all_goals first
    | exact List.suffix_refl _
    | exact List.nil_suffix

theorem handle_history_eq (st : ConvState) (save : SaveOutcome) (ts : String) :
    ((handleActionExecution st save ts).1).history = st.history := by
  unfold handleActionExecution
  repeat' split
  all_goals rfl

/-- History of a processed turn: it is an `addToHistory` of a suffix of the
prior history (the suffix is the whole history except on the session-reset
paths, which clear it) with the entry of this turn. -/
theorem processMessage_history (st : ConvState) (o : ClassifierOutcome)
    (userInput : String) (save : SaveOutcome) (ts : String) :
    ∃ h' e, (processMessage st o userInput save ts).1.history = addToHistory h' e
      ∧ h' <:+ st.history
      ∧ e.user_input = userInput ∧ e.timestamp = ts
      ∧ e.bot_response = (match o with
          | ClassifierOutcome.raises _ => errorReply
          | ClassifierOutcome.returns r => r.response) := by
  cases o with
  | raises e =>
    exact ⟨st.history, _, rfl, List.suffix_refl _, rfl, rfl, rfl⟩
  | returns r =>
    refine ⟨(handleActionExecution
        (updateStateFromLlmResponse st r userInput) save ts).1.history,
      _, rfl, ?_, rfl, rfl, rfl⟩
    rw [handle_history_eq]
    exact update_history_suffix st r userInput

/-- After a successful save, the reset session never satisfies the gate. -/
theorem isReady_handle_ok (st : ConvState) (fn fp ts : String)
    (hr : isReadyForExecution st = true) :
    isReadyForExecution (handleActionExecution st (SaveOutcome.ok fn fp) ts).1 = false := by
  unfold handleActionExecution getActionForExecution
  rw [hr]
  exact isReady_resetSession _

/-! ### The claims -/

/-- C1 counterexample: the claimed characterization of the execution gate
fails on the code.  The claim requires all entities to be present AND VALID
(and a `userConfirmed` flag to be true), but the session state has no
user-confirmed field and `is_ready_for_execution` performs no validity check:
in `emailReadyState` the recipient "bob" fails the email-shape validation of
`validate_email_addresses`, yet the gate returns true. -/
theorem c1_gate_counterexample :
    isReadyForExecution emailReadyState = true ∧
      validateEmailAddresses (Val.vstr "bob") = false := by
  constructor
  · decide
  · decide

/-- C1 (amended): `is_ready_for_execution` returns true exactly when the
session is active, the intent is schedule-meeting or send-email, the
intent-specific required entities are non-empty after stripping (with no
shape validation and with no separate user-confirmed flag — a positive
confirmation is recorded only by clearing `awaiting_confirmation`), and
`awaiting_confirmation` is false; and this gate is the single guard of
persistence: `_handle_action_execution` produces an execution result only
when the gate holds on the state it is given. -/
theorem c1_gate_characterization :
    (∀ st : ConvState,
        isReadyForExecution st =
          (st.session_active
            && (st.intent == some "schedule_meeting" || st.intent == some "send_email")
            && hasRequiredEntities st
            && !st.awaiting_confirmation))
    ∧ (∀ (st st' : ConvState) (save : SaveOutcome) (ts : String) (er : ExecResult),
        handleActionExecution st save ts = (st', some er) →
        isReadyForExecution st = true) := by
  constructor
  · intro st
    unfold isReadyForExecution hasRequiredEntities
    by_cases hm : st.intent = some "schedule_meeting"
    · simp [hm, Bool.and_assoc]
    · by_cases he : st.intent = some "send_email"
      · simp [hm, he, Bool.and_assoc]
      · simp [hm, he]
  · intro st st' save ts er h
    cases hr : isReadyForExecution st
    · unfold handleActionExecution at h
      rw [hr] at h
      simp at h
    · rfl

/-- C1 witness: the guarding direction applied at a concrete ready state and
a failing save. -/
theorem c1_gate_characterization_witness :
    isReadyForExecution emailReadyState = true :=
  c1_gate_characterization.2 emailReadyState emailReadyState
    (SaveOutcome.err "disk full") "t"
    { success := false, action_executed := false, filename := none,
      filepath := none, error := some "disk full",
      message := "❌ Failed to save send_email: disk full" }
    (by decide)

/-- C2 counterexample: the claim says a confirmation-kind turn classifies the
raw user text against a fixed yes/no lexicon instead of trusting the
classifier flag.  The code consults only `ready_to_execute`: with the raw
input "no" (a negative word of the claimed lexicon) and a classifier turn
whose `ready_to_execute` is true, the state machine clears
`awaiting_confirmation` and keeps the session — the positive outcome. -/
theorem c2_lexicon_counterexample :
    (updateStateFromLlmResponse meetingPendingState confirmReadyTurn "no").awaiting_confirmation
        = false
    ∧ (updateStateFromLlmResponse meetingPendingState confirmReadyTurn "no").intent
        = some "schedule_meeting"
    ∧ (updateStateFromLlmResponse meetingPendingState confirmReadyTurn "no").session_active
        = true := by
  refine ⟨?_, ?_, ?_⟩ <;> decide

/-- C2 (amended): `_update_state_from_llm_response` never reads the raw user
text (its result is independent of the input string), and on a
confirmation-kind turn it relies solely on the classifier flag
`ready_to_execute`: if the flag is set it clears `awaiting_confirmation`,
otherwise it resets the whole session.  No confirmation lexicon exists in
the code. -/
theorem c2_confirmation_flag_only :
    (∀ (st : ConvState) (r : LLMResponse) (a b : String),
        updateStateFromLlmResponse st r a = updateStateFromLlmResponse st r b)
    ∧ (∀ (st : ConvState) (r : LLMResponse) (i : String),
        r.action_type = "confirmation" →
        updateStateFromLlmResponse st r i =
          if r.ready_to_execute then { st with awaiting_confirmation := false }
          else resetState) := by
  constructor
  · intro st r a b
    rfl
  · intro st r i h
    unfold updateStateFromLlmResponse
    rw [h]
    rfl

/-- C2 witness: the confirmation branch applied at a concrete pending
state. -/
theorem c2_confirmation_flag_only_witness :
    updateStateFromLlmResponse meetingPendingState confirmReadyTurn "yes" =
      if confirmReadyTurn.ready_to_execute
        then { meetingPendingState with awaiting_confirmation := false }
        else resetState :=
  c2_confirmation_flag_only.2 meetingPendingState confirmReadyTurn "yes" rfl

/-- C3: for every state of the dialogue state machine (hence for every
reachable one), if `awaiting_confirmation` is true then
`is_ready_for_execution` returns false, regardless of entity
completeness. -/
theorem c3_awaiting_blocks_execution :
    ∀ st : ConvState, st.awaiting_confirmation = true →
      isReadyForExecution st = false := by
  intro st h
  unfold isReadyForExecution
  rw [h]
  repeat' split
  all_goals simp

/-- C3 witness: the invariant applied at a concrete pending-confirmation
state with complete entities. -/
theorem c3_awaiting_blocks_execution_witness :
    isReadyForExecution meetingPendingState = false :=
  c3_awaiting_blocks_execution meetingPendingState rfl

/-- C4 counterexample: a correction turn whose `correction_detected` flag is
unset is ignored entirely, so a key mentioned in the correction deltas is
NOT overwritten: after a new-intent turn setting the date to 2026-10-13 and
a correction turn carrying the delta date 2026-10-14 with the flag unset,
the date is still 2026-10-13. -/
theorem c4_merge_counterexample :
    lookupKey (updateStateFromLlmResponse
        (updateStateFromLlmResponse resetState meetingNewIntentTurn "book a standup")
        correctionIgnoredTurn "actually the 14th").entities "date"
      = some (Val.vstr "2026-10-13")
    ∧ lookupKey correctionIgnoredTurn.entities "date" = some (Val.vstr "2026-10-14") := by
  constructor <;> decide

/-- C4 (amended): for every new-intent turn followed immediately by a
correction turn whose `correction_detected` flag is set, the deltas are
merged (not replacing): every entity key not mentioned in the deltas keeps
exactly its prior value, and every mentioned key (for duplicate-free delta
keys) is overwritten with the delta value.  When the flag is unset the
correction turn leaves the entities untouched. -/
theorem c4_correction_merge :
    ∀ (st : ConvState) (r1 r2 : LLMResponse) (i1 i2 : String),
      r1.action_type = "new_intent" → r2.action_type = "correction" →
      r2.correction_detected = true →
      (∀ k, lookupKey r2.entities k = none →
        lookupKey (updateStateFromLlmResponse
            (updateStateFromLlmResponse st r1 i1) r2 i2).entities k
          = lookupKey (updateStateFromLlmResponse st r1 i1).entities k)
      ∧ (∀ k v, (r2.entities.map Prod.fst).Nodup →
          lookupKey r2.entities k = some v →
          lookupKey (updateStateFromLlmResponse
              (updateStateFromLlmResponse st r1 i1) r2 i2).entities k = some v) := by
  intro st r1 r2 i1 i2 _h1 h2 hd
  have hstep : ∀ mid : ConvState, updateStateFromLlmResponse mid r2 i2 =
      { mid with entities := dictUpdate mid.entities r2.entities
                 awaiting_confirmation := r2.needs_confirmation } := by
    intro mid
    unfold updateStateFromLlmResponse
    rw [h2, hd]
    rfl
  rw [hstep]
  constructor
  · intro k hk
    exact lookupKey_dictUpdate_of_not_mem r2.entities _ k hk
  · intro k v hnd hk
    exact lookupKey_dictUpdate_of_mem r2.entities _ k v hnd hk

/-- C4 witness: both merge directions applied on a concrete run. -/
theorem c4_correction_merge_witness :
    lookupKey (updateStateFromLlmResponse
        (updateStateFromLlmResponse resetState meetingNewIntentTurn "a")
        correctionAppliedTurn "b").entities "title"
      = lookupKey (updateStateFromLlmResponse resetState meetingNewIntentTurn "a").entities "title"
    ∧ lookupKey (updateStateFromLlmResponse
        (updateStateFromLlmResponse resetState meetingNewIntentTurn "a")
        correctionAppliedTurn "b").entities "date" = some (Val.vstr "2026-10-14") :=
  ⟨(c4_correction_merge resetState meetingNewIntentTurn correctionAppliedTurn "a" "b"
      rfl rfl rfl).1 "title" (by decide),
   (c4_correction_merge resetState meetingNewIntentTurn correctionAppliedTurn "a" "b"
      rfl rfl rfl).2 "date" (Val.vstr "2026-10-14") (by decide) (by decide)⟩

/-- C5 counterexample: the claim says a schedule-meeting turn supplying
title, date and time but no participants leaves the gate false with
participants among the missing fields.  In the code participants is not
required: after exactly that turn the gate is true and the missing-field
list is empty. -/
theorem c5_participants_counterexample :
    isReadyForExecution scenarioAState = true
    ∧ getMissingEntities scenarioAState = [] := by
  constructor <;> decide

/-- C5 (amended): after a new-intent schedule-meeting turn that supplies
non-empty title, date and time and does not request confirmation,
`is_ready_for_execution` is true and `_get_missing_entities` is empty — in
particular participants is never among the missing fields, because the
manager only requires title, date and time for a meeting. -/
theorem c5_meeting_requirements :
    ∀ (st : ConvState) (r : LLMResponse) (i : String),
      r.action_type = "new_intent" → r.intent = some "schedule_meeting" →
      r.needs_confirmation = false →
      fieldFilled r.entities "title" = true →
      fieldFilled r.entities "date" = true →
      fieldFilled r.entities "time" = true →
      isReadyForExecution (updateStateFromLlmResponse st r i) = true
      ∧ getMissingEntities (updateStateFromLlmResponse st r i) = []
      ∧ "participants" ∉ getMissingEntities (updateStateFromLlmResponse st r i) := by
  intro st r i ha hi hn ht hd htime
  have hupd : updateStateFromLlmResponse st r i =
      { st with intent := r.intent
                entities := r.entities
                awaiting_confirmation := r.needs_confirmation
                session_active := true } := by
    unfold updateStateFromLlmResponse
    rw [ha, hi]
    rfl
  rw [hupd, hi, hn]
  have hready : isReadyForExecution
      { st with intent := some "schedule_meeting"
                entities := r.entities
                awaiting_confirmation := false
                session_active := true } = true := by
    simp [isReadyForExecution, ht, hd, htime]
  have hmiss : getMissingEntities
      { st with intent := some "schedule_meeting"
                entities := r.entities
                awaiting_confirmation := false
                session_active := true } = [] := by
    simp [getMissingEntities, ht, hd, htime]
  exact ⟨hready, hmiss, by simp [hmiss]⟩

/-- C5 witness: the amended claim applied to the Scenario A turn. -/
theorem c5_meeting_requirements_witness :
    isReadyForExecution (updateStateFromLlmResponse resetState scenarioAturn "hi") = true
    ∧ getMissingEntities (updateStateFromLlmResponse resetState scenarioAturn "hi") = []
    ∧ "participants" ∉ getMissingEntities (updateStateFromLlmResponse resetState scenarioAturn "hi") :=
  c5_meeting_requirements resetState scenarioAturn "hi" rfl rfl rfl
    (by decide) (by decide) (by decide)

/-- C6 counterexample: `_has_required_entities` for send-email accepts the
recipient "bob", which fails the email-shape validation of
`validate_email_addresses`; the completeness check never invokes a shape
validation. -/
theorem c6_email_validation_counterexample :
    hasRequiredEntities emailReadyState = true
    ∧ lookupKey emailReadyState.entities "recipient" = some (Val.vstr "bob")
    ∧ validateEmailAddresses (Val.vstr "bob") = false := by
  refine ⟨?_, ?_, ?_⟩ <;> decide

/-- C6 (amended): for the send-email intent, `_has_required_entities`
returns true exactly when the recipient is non-empty after stripping and at
least one of body or subject is non-empty — with no email-shape validation
of the recipient. -/
theorem c6_email_completeness :
    ∀ st : ConvState, st.intent = some "send_email" →
      hasRequiredEntities st =
        (fieldFilled st.entities "recipient"
          && (fieldFilled st.entities "body" || fieldFilled st.entities "subject")) := by
  intro st h
  unfold hasRequiredEntities
  rw [h]
  rfl

/-- C6 witness: the completeness characterization at a concrete email
state. -/
theorem c6_email_completeness_witness :
    hasRequiredEntities emailReadyState =
      (fieldFilled emailReadyState.entities "recipient"
        && (fieldFilled emailReadyState.entities "body"
          || fieldFilled emailReadyState.entities "subject")) :=
  c6_email_completeness emailReadyState rfl

/-- C7 counterexample: the claim says every classifier failure leaves all
state fields except history unchanged.  But when the pre-state already
satisfies the execution gate (reachable only after a failed persistence), a
turn whose classifier reply is unparsable — the parse fallback carries
action type error and is a no-op on the state — still reaches
`_handle_action_execution`, which re-attempts the save; on success it
resets the session, so the intent changes. -/
theorem c7_failure_counterexample :
    (processMessage emailReadyState (ClassifierOutcome.returns parseFallbackResponse) "???"
        (SaveOutcome.ok "f.json" "outbox/f.json") "t").1.intent = none
    ∧ emailReadyState.intent = some "send_email" := by
  constructor <;> decide

/-- C7 (amended): a classifier exception is absorbed: `process_message`
returns normally with the fixed apology, action type error and no execution
result, and the new state differs from the old only by the single appended
history entry.  A parse failure (the fallback dictionary returned by
`_parse_response`) behaves the same provided the pre-state does not already
satisfy the execution gate; a gate-satisfying pre-state (left by a failed
persistence) is re-submitted to the execution handler. -/
theorem c7_classifier_failure :
    (∀ (st : ConvState) (e userInput : String) (save : SaveOutcome) (ts : String),
      (processMessage st (ClassifierOutcome.raises e) userInput save ts).1 =
        { st with history :=
            addToHistory st.history (mkEntry userInput errorReply ts st.entities) }
      ∧ (processMessage st (ClassifierOutcome.raises e) userInput save ts).2.action_type = "error"
      ∧ (processMessage st (ClassifierOutcome.raises e) userInput save ts).2.response = errorReply
      ∧ (processMessage st (ClassifierOutcome.raises e) userInput save ts).2.execution_result = none)
    ∧ (∀ (st : ConvState) (userInput : String) (save : SaveOutcome) (ts : String),
        isReadyForExecution st = false →
        (processMessage st (ClassifierOutcome.returns parseFallbackResponse) userInput save ts).1 =
          { st with history := addToHistory st.history (mkEntry userInput parseFallbackResponse.response ts st.entities) }
        ∧ (processMessage st (ClassifierOutcome.returns parseFallbackResponse) userInput save ts).2.action_type
            = "error"
        ∧ (processMessage st (ClassifierOutcome.returns parseFallbackResponse) userInput save ts).2.response
            = "I had trouble understanding that. Could you rephrase?"
        ∧ (processMessage st (ClassifierOutcome.returns parseFallbackResponse) userInput save ts).2.execution_result
            = none) := by
  constructor
  · intro st e userInput save ts
    exact ⟨rfl, rfl, rfl, rfl⟩
  · intro st userInput save ts hr
    have hupd : updateStateFromLlmResponse st parseFallbackResponse userInput = st := rfl
    have hhandle : handleActionExecution st save ts = (st, none) := by
      unfold handleActionExecution
      rw [hr]
      rfl
    refine ⟨?_, rfl, rfl, ?_⟩
    · show ({ (handleActionExecution
          (updateStateFromLlmResponse st parseFallbackResponse userInput) save ts).1 with
            history := _ } : ConvState) = _
      rw [hupd, hhandle]
      rfl
    · show (handleActionExecution
          (updateStateFromLlmResponse st parseFallbackResponse userInput) save ts).2 = none
      rw [hupd, hhandle]

/-- C7 witness: the parse-fallback case applied at the fresh state. -/
theorem c7_classifier_failure_witness :
    (processMessage resetState (ClassifierOutcome.returns parseFallbackResponse) "hi"
        (SaveOutcome.ok "f" "p") "t").1 =
      { resetState with history := addToHistory resetState.history (mkEntry "hi" parseFallbackResponse.response "t" resetState.entities) }
    ∧ (processMessage resetState (ClassifierOutcome.returns parseFallbackResponse) "hi"
        (SaveOutcome.ok "f" "p") "t").2.action_type = "error"
    ∧ (processMessage resetState (ClassifierOutcome.returns parseFallbackResponse) "hi"
        (SaveOutcome.ok "f" "p") "t").2.response
        = "I had trouble understanding that. Could you rephrase?"
    ∧ (processMessage resetState (ClassifierOutcome.returns parseFallbackResponse) "hi"
        (SaveOutcome.ok "f" "p") "t").2.execution_result = none :=
  c7_classifier_failure.2 resetState "hi" (SaveOutcome.ok "f" "p") "t" rfl

/-- C8: when a ready action is executed, successful persistence resets the
session to its zero value except that history is retained and
`last_saved_action` is set to the new record; failed persistence leaves the
state exactly unchanged and surfaces a failure result, distinct from the
not-ready outcome which produces no execution result at all. -/
theorem c8_persistence_effects :
    (∀ (st : ConvState) (fn fp ts : String), isReadyForExecution st = true →
      (handleActionExecution st (SaveOutcome.ok fn fp) ts).1.intent = none
      ∧ (handleActionExecution st (SaveOutcome.ok fn fp) ts).1.entities = []
      ∧ (handleActionExecution st (SaveOutcome.ok fn fp) ts).1.awaiting_confirmation = false
      ∧ (handleActionExecution st (SaveOutcome.ok fn fp) ts).1.awaiting_email_addresses = false
      ∧ (handleActionExecution st (SaveOutcome.ok fn fp) ts).1.session_active = false
      ∧ (handleActionExecution st (SaveOutcome.ok fn fp) ts).1.history = st.history
      ∧ (handleActionExecution st (SaveOutcome.ok fn fp) ts).1.last_saved_action =
          some (SavedAction.mk fn fp (st.intent.getD "") (st.intent.getD "") ts)
      ∧ (∃ er, (handleActionExecution st (SaveOutcome.ok fn fp) ts).2 = some er
          ∧ er.success = true ∧ er.action_executed = true))
    ∧ (∀ (st : ConvState) (e ts : String), isReadyForExecution st = true →
      (handleActionExecution st (SaveOutcome.err e) ts).1 = st
      ∧ (∃ er, (handleActionExecution st (SaveOutcome.err e) ts).2 = some er
          ∧ er.success = false ∧ er.action_executed = false ∧ er.error = some e))
    ∧ (∀ (st : ConvState) (save : SaveOutcome) (ts : String),
        isReadyForExecution st = false →
        handleActionExecution st save ts = (st, none)) := by
  refine ⟨?_, ?_, ?_⟩
  · intro st fn fp ts hr
    have hh : handleActionExecution st (SaveOutcome.ok fn fp) ts =
        (resetSessionAfterExecution
            { st with last_saved_action := some (SavedAction.mk fn fp (st.intent.getD "") (st.intent.getD "") ts) },
         some (ExecResult.mk true true (some fn) (some fp) none
            ("✅ " ++ pyTitle ((st.intent.getD "").replace "_" " ") ++ " saved successfully!"))) := by
      unfold handleActionExecution getActionForExecution
      rw [hr]
      rfl
    rw [hh]
    exact ⟨rfl, rfl, rfl, rfl, rfl, rfl, rfl, ⟨_, rfl, rfl, rfl⟩⟩
  · intro st e ts hr
    have hh : handleActionExecution st (SaveOutcome.err e) ts =
        (st, some (ExecResult.mk false false none none (some e)
            ("❌ Failed to save " ++ (st.intent.getD "") ++ ": " ++ e))) := by
      unfold handleActionExecution getActionForExecution
      rw [hr]
      rfl
    rw [hh]
    exact ⟨rfl, ⟨_, rfl, rfl, rfl, rfl⟩⟩
  · intro st save ts hr
    unfold handleActionExecution
    rw [hr]
    rfl

/-- C8 witness: the three branches applied at concrete states. -/
theorem c8_persistence_effects_witness :
    (handleActionExecution emailReadyState (SaveOutcome.ok "f.json" "o/f.json") "t").1.intent = none
    ∧ ((handleActionExecution emailReadyState (SaveOutcome.err "disk full") "t").1 = emailReadyState
      ∧ ∃ er, (handleActionExecution emailReadyState (SaveOutcome.err "disk full") "t").2 = some er
          ∧ er.success = false ∧ er.action_executed = false ∧ er.error = some "disk full")
    ∧ handleActionExecution resetState (SaveOutcome.err "x") "t" = (resetState, none) :=
  ⟨(c8_persistence_effects.1 emailReadyState "f.json" "o/f.json" "t" (by decide)).1,
   c8_persistence_effects.2.1 emailReadyState "disk full" "t" (by decide),
   c8_persistence_effects.2.2 resetState (SaveOutcome.err "x") "t" rfl⟩

/-- C9: after any number of processed turns from the initial state the
history length never exceeds the cap of 10; and every processed turn —
normal, classifier error, or any other path — appends exactly one entry
carrying the user input of that turn, reply text and timestamp as the newest
element, the retained older entries being a suffix of the prior history
(eviction removes the oldest entries first). -/
theorem c9_history_bounded :
    (∀ turns : List (ClassifierOutcome × String × SaveOutcome × String),
      (runTurns turns).history.length ≤ 10)
    ∧ (∀ (st : ConvState) (o : ClassifierOutcome) (userInput : String)
        (save : SaveOutcome) (ts : String),
        ∃ q e, (processMessage st o userInput save ts).1.history = q ++ [e]
          ∧ q <:+ st.history
          ∧ e.user_input = userInput ∧ e.timestamp = ts
          ∧ e.bot_response = (match o with
              | ClassifierOutcome.raises _ => errorReply
              | ClassifierOutcome.returns r => r.response)) := by
  constructor
  · have hstep : ∀ (st : ConvState) (t : ClassifierOutcome × String × SaveOutcome × String),
        (stepTurn st t).history.length ≤ 10 := by
      intro st t
      obtain ⟨h', e, heq, -, -, -, -⟩ :=
        processMessage_history st t.1 t.2.1 t.2.2.1 t.2.2.2
      show (processMessage st t.1 t.2.1 t.2.2.1 t.2.2.2).1.history.length ≤ 10
      rw [heq]
      exact addToHistory_length_le _ _
    have hfold : ∀ (l : List (ClassifierOutcome × String × SaveOutcome × String))
        (st : ConvState), st.history.length ≤ 10 →
        (l.foldl stepTurn st).history.length ≤ 10 := by
      intro l
      induction l with
      | nil => intro st h; exact h
      | cons t l ih =>
        intro st _
        exact ih _ (hstep st t)
    intro turns
    exact hfold turns resetState (by simp [resetState])
  · intro st o userInput save ts
    obtain ⟨h', e, heq, hsuf, hu, ht, hb⟩ :=
      processMessage_history st o userInput save ts
    obtain ⟨q, hq, hqsuf⟩ := addToHistory_shape h' e
    exact ⟨q, e, by rw [heq, hq], hqsuf.trans hsuf, hu, ht, hb⟩

/-- C10 counterexample: the claim says the gate is false after every
`process_message` call unless the persistence attempt of that call failed.  A call whose
classifier raises performs no persistence attempt at all and leaves the
state unchanged, so a pre-state left ready by an earlier failed save is
still ready afterwards while the response carries no execution result. -/
theorem c10_pending_counterexample :
    isReadyForExecution (processMessage emailReadyState (ClassifierOutcome.raises "boom")
        "hello" (SaveOutcome.ok "f" "p") "t").1 = true
    ∧ (processMessage emailReadyState (ClassifierOutcome.raises "boom")
        "hello" (SaveOutcome.ok "f" "p") "t").2.execution_result = none := by
  constructor <;> decide

/-- C10 (amended): immediately after `process_message` returns, the
execution gate is false unless this call attempted persistence and the save
failed (the response then carries a failed execution result), or the call
aborted on a classifier exception while the pre-state already satisfied the
gate.  In particular a turn whose transition makes the gate true is
persisted and reset within the same call. -/
theorem c10_no_pending_action :
    ∀ (st : ConvState) (o : ClassifierOutcome) (userInput : String)
      (save : SaveOutcome) (ts : String),
      isReadyForExecution (processMessage st o userInput save ts).1 = true →
      (∃ er, (processMessage st o userInput save ts).2.execution_result = some er
        ∧ er.success = false)
      ∨ ((∃ e, o = ClassifierOutcome.raises e) ∧ isReadyForExecution st = true) := by
  intro st o userInput save ts hpost
  cases o with
  | raises e =>
    right
    refine ⟨⟨e, rfl⟩, ?_⟩
    have hsame : isReadyForExecution
        (processMessage st (ClassifierOutcome.raises e) userInput save ts).1
          = isReadyForExecution st :=
      isReady_set_history st _
    rw [hsame] at hpost
    exact hpost
  | returns r =>
    cases hr : isReadyForExecution (updateStateFromLlmResponse st r userInput) with
    | false =>
      exfalso
      have hh : handleActionExecution (updateStateFromLlmResponse st r userInput) save ts
          = (updateStateFromLlmResponse st r userInput, none) := by
        unfold handleActionExecution
        rw [hr]
        rfl
      have hsame : isReadyForExecution
          (processMessage st (ClassifierOutcome.returns r) userInput save ts).1
            = isReadyForExecution (updateStateFromLlmResponse st r userInput) := by
        show isReadyForExecution
          { (handleActionExecution (updateStateFromLlmResponse st r userInput) save ts).1 with
              history := _ } = _
        rw [hh]
        exact isReady_set_history _ _
      rw [hsame, hr] at hpost
      simp at hpost
    | true =>
      cases save with
      | ok fn fp =>
        exfalso
        have hsame : isReadyForExecution
            (processMessage st (ClassifierOutcome.returns r) userInput (SaveOutcome.ok fn fp) ts).1
              = isReadyForExecution (handleActionExecution
                  (updateStateFromLlmResponse st r userInput) (SaveOutcome.ok fn fp) ts).1 :=
          isReady_set_history _ _
        rw [hsame, isReady_handle_ok _ fn fp ts hr] at hpost
        simp at hpost
      | err e =>
        left
        have hh : handleActionExecution (updateStateFromLlmResponse st r userInput)
            (SaveOutcome.err e) ts
            = (updateStateFromLlmResponse st r userInput,
               some (ExecResult.mk false false none none (some e)
                 ("❌ Failed to save "
                   ++ ((updateStateFromLlmResponse st r userInput).intent.getD "") ++ ": " ++ e))) := by
          unfold handleActionExecution getActionForExecution
          rw [hr]
          rfl
        refine ⟨ExecResult.mk false false none none (some e)
            ("❌ Failed to save "
              ++ ((updateStateFromLlmResponse st r userInput).intent.getD "") ++ ": " ++ e),
          ?_, rfl⟩
        show (handleActionExecution (updateStateFromLlmResponse st r userInput)
            (SaveOutcome.err e) ts).2 = some _
        rw [hh]

/-- C10 witness: a ready state with a failing save yields the failed
execution result. -/
theorem c10_no_pending_action_witness :
    (∃ er, (processMessage emailReadyState (ClassifierOutcome.returns parseFallbackResponse)
        "x" (SaveOutcome.err "disk") "t").2.execution_result = some er ∧ er.success = false)
    ∨ ((∃ e, ClassifierOutcome.returns parseFallbackResponse = ClassifierOutcome.raises e)
        ∧ isReadyForExecution emailReadyState = true) :=
  c10_no_pending_action emailReadyState (ClassifierOutcome.returns parseFallbackResponse)
    "x" (SaveOutcome.err "disk") "t" (by decide)

end ConvAI
